import Mathlib

/-!
# Verification of the MedAssistPro monitoring-and-reconciliation subsystem

Shallow embedding of the algorithmic core of `src/index.tsx`:

* the vitals / geofence alert gates (the "AlertDebouncer" instances at
  lines 725-732 and 768-776),
* the geofence monitor (lines 735-765) and the haversine distance
  (lines 61-71),
* the hospital narrative reconciler (lines 914-959),
* the financial-aid response handling (lines 976-1024).

Machine numbers of the source are modelled as exact `ℚ` / `ℝ`; the
`Math.random()` draws are threaded explicitly as oracle parameters.
String scanning is modelled on `List Char` so that every definition
reduces inside the kernel.
-/

namespace MedAssist

/-! ## String helpers: the JavaScript string primitives the code uses -/

/-- Whitespace as trimmed by JavaScript `String.prototype.trim` (the
characters that actually occur in this code base). -/
def isJsSpace (c : Char) : Bool :=
  c = ' ' || c = '\t' || c = '\n' || c = '\r'

/-- JavaScript `trim` on a character list: strip whitespace at both ends. -/
def trimChars (s : List Char) : List Char :=
  ((s.dropWhile isJsSpace).reverse.dropWhile isJsSpace).reverse

/-- JavaScript `trim` on a string. -/
def jsTrim (s : String) : String :=
  ⟨trimChars s.data⟩

/-- ASCII lower-casing of a character list; stands in for the
case-insensitive `i` regex flag and `toLowerCase()`. -/
def lowerChars (s : List Char) : List Char :=
  s.map Char.toLower

/-- Leftmost index at which `pat` occurs in `hay` (the position a
JavaScript regex or `indexOf` search finds for a literal pattern). -/
def findSub (pat : List Char) : List Char → Option Nat
  | [] => if pat.isPrefixOf ([] : List Char) then some 0 else none
  | c :: t =>
    if pat.isPrefixOf (c :: t) then some 0
    else (findSub pat t).map (· + 1)

/-- Whether `pat` occurs in `hay` (JavaScript `includes`). -/
def containsSub (hay pat : List Char) : Bool :=
  (findSub pat hay).isSome

/-! ## Alert debouncers (src/index.tsx lines 725-732 and 768-776)

Both effects keep a mutable "already shown" flag (`vitalsAlertShownRef`,
`outOfBoundsAlertShownRef`).  The spec calls the complement of that flag
the `armed` flag of the debouncer: `armed = !shown`.

Each step takes the current flag and the sample `conditionActive`
(for vitals this is the line-727 predicate
`heartRate < 60 || heartRate > 100 || oxygenLevel < 95`; for the
geofence it is `isOutOfBounds`) and returns `(fireNotification, shown)`.
`isLinked` is `true` for every sample of a monitoring session, so it is
not a parameter. -/

/-- Abnormality predicate of line 727:
`heartRate < 60 || heartRate > 100 || oxygenLevel < 95`. -/
def vitalsAbnormal (heartRate oxygenLevel : Int) : Bool :=
  heartRate < 60 || heartRate > 100 || oxygenLevel < 95

/-- One run of the vitals alert effect (lines 725-732) on one sample.
The alert fires, and the shown flag is set, exactly when the contact is
non-empty after trimming, the flag is not yet set and the reading is
abnormal.  Nothing in this effect ever clears the flag. -/
def vitalsAlertStep (emergencyContact : String) (shown conditionActive : Bool) :
    Bool × Bool :=
  if jsTrim emergencyContact != "" && !shown && conditionActive then (true, true)
  else (false, shown)

/-- One run of the out-of-bounds alert effect (lines 768-776) on one sample.
First `if`: fire and set the flag when out of bounds, contact non-empty
and the flag is clear.  Second `if`: any in-bounds sample clears the flag. -/
def geoAlertStep (emergencyContact : String) (shown conditionActive : Bool) :
    Bool × Bool :=
  let fire := conditionActive && jsTrim emergencyContact != "" && !shown
  let shown1 := if fire then true else shown
  let shown2 := if !conditionActive then false else shown1
  (fire, shown2)

/-- Trace of the vitals alert effect over a list of samples: one
`(fireNotification, shown-after)` pair per sample. -/
def vitalsAlertTrace (emergencyContact : String) :
    Bool → List Bool → List (Bool × Bool)
  | _, [] => []
  | shown, a :: as =>
    let r := vitalsAlertStep emergencyContact shown a
    r :: vitalsAlertTrace emergencyContact r.2 as

/-- Trace of the out-of-bounds alert effect over a list of samples. -/
def geoAlertTrace (emergencyContact : String) :
    Bool → List Bool → List (Bool × Bool)
  | _, [] => []
  | shown, a :: as =>
    let r := geoAlertStep emergencyContact shown a
    r :: geoAlertTrace emergencyContact r.2 as

/-! ## Distance and geofence monitor (src/index.tsx lines 61-71, 735-765)

`calculateDistance` is the haversine formula of lines 61-71, read over
exact reals (`Math.sin` etc. idealised as the real functions).  The local
`a` of line 65 is named `havA`. -/

/-- JavaScript `Math.atan2(y, x)`: the angle of the point `(x, y)`.
The haversine call sites only ever reach the `0 < x` and `x = 0` branches. -/
noncomputable def atan2 (y x : ℝ) : ℝ :=
  if 0 < x then Real.arctan (y / x)
  else if x < 0 ∧ 0 ≤ y then Real.arctan (y / x) + Real.pi
  else if x < 0 ∧ y < 0 then Real.arctan (y / x) - Real.pi
  else if x = 0 ∧ 0 < y then Real.pi / 2
  else if x = 0 ∧ y < 0 then -(Real.pi / 2)
  else 0

/-- The intermediate value `a` of lines 65-68:
`sin(dLat/2)^2 + cos(lat1 rad) * cos(lat2 rad) * sin(dLon/2)^2`. -/
noncomputable def havA (lat1 lon1 lat2 lon2 : ℝ) : ℝ :=
  Real.sin ((lat2 - lat1) * Real.pi / 180 / 2)
      * Real.sin ((lat2 - lat1) * Real.pi / 180 / 2) +
    Real.cos (lat1 * Real.pi / 180) * Real.cos (lat2 * Real.pi / 180) *
      (Real.sin ((lon2 - lon1) * Real.pi / 180 / 2)
        * Real.sin ((lon2 - lon1) * Real.pi / 180 / 2))

/-- `calculateDistance` of lines 61-71: `R * c` with `R = 6371` and
`c = 2 * atan2(sqrt a, sqrt (1 - a))`. -/
noncomputable def calculateDistance (lat1 lon1 lat2 lon2 : ℝ) : ℝ :=
  6371 * (2 * atan2 (Real.sqrt (havA lat1 lon1 lat2 lon2))
    (Real.sqrt (1 - havA lat1 lon1 lat2 lon2)))

/-- A position reading, the `Position` record of the source. -/
structure Position where
  lat : ℝ
  lon : ℝ

/-- The boundary comparison of line 750: `distance > 5`. -/
def isOutOfBoundsFor (distance : ℝ) : Prop := distance > 5

/-- One `watchPosition` callback, lines 747-752: default the home
reference to the new reading when unset, classify against the home, keep
the home.  Returns the new home reference and the new `isOutOfBounds`. -/
noncomputable def geofenceUpdate (prevHome : Option Position) (p : Position) :
    Option Position × Prop :=
  let home := prevHome.getD p
  (some home, isOutOfBoundsFor (calculateDistance home.lat home.lon p.lat p.lon))

/-- Home references along a run of readings.  A monitoring session starts
from `none`: lines 738-739 clear the home reference whenever the GPS
effect (re)starts. -/
noncomputable def geofenceRunHomes : Option Position → List Position → List (Option Position)
  | _, [] => []
  | h, p :: ps =>
    let r := geofenceUpdate h p
    r.1 :: geofenceRunHomes r.1 ps

/-! ## Hospital narrative reconciler (src/index.tsx lines 914-959) -/

/-- A grounded search hit: `{ name: chunk.maps.title, uri: chunk.maps.uri }`
of lines 909-912. -/
structure GroundingHit where
  name : String
  uri : String

/-- The enriched `Hospital` record of lines 14-20 / 957. -/
structure Hospital where
  name : String
  uri : String
  bestDoctor : String
  rating : String
  contact : String

/-- Lines 929-930: `new RegExp("HOSPITAL: " + escaped(name) + "[\s\S]*?---", "i")`
applied to the narrative.  The name is regex-escaped in the source, so it
matches literally; the `i` flag is the lower-casing; the lazy
`[\s\S]*?---` ends the match at the first `---` after the header.  The
regex engine returns the leftmost match, which (because a terminating
`---` for a later header position also terminates an earlier one) starts
at the leftmost occurrence of `HOSPITAL: ` followed by the name. -/
def findHospitalBlock (resultText name : List Char) : Option (List Char) :=
  let pat := lowerChars ("HOSPITAL: ".data ++ name)
  match findSub pat (lowerChars resultText) with
  | none => none
  | some i =>
    match findSub "---".data (resultText.drop (i + pat.length)) with
    | none => none
    | some k => some ((resultText.drop i).take (pat.length + k + 3))

/-- Lines 938-944: `block.match(/LABEL: (.*)/i)` and `.trim()`: the first
case-insensitive occurrence of the label, captured to the end of the line,
trimmed.  (When the capture is pure whitespace the source keeps the empty
string, which equals the trimmed capture, so the guard on line 942-944 is
absorbed.) -/
def extractField (block label : List Char) : List Char :=
  match findSub (lowerChars label) (lowerChars block) with
  | none => []
  | some i =>
    trimChars ((block.drop (i + label.length)).takeWhile
      (fun c => c != '\n' && c != '\r'))

/-- Raw extracted field for one hit: empty when no block matches
(lines 932-945). -/
def rawField (resultText name label : List Char) : List Char :=
  match findHospitalBlock resultText name with
  | none => []
  | some block => extractField block label

/-- The fallback doctor pool of lines 917-921. -/
def randomDoctorNames : List String :=
  ["Dr. Emily Carter", "Dr. Benjamin Hayes", "Dr. Olivia Chen",
   "Dr. Jacob Rodriguez", "Dr. Sophia Williams", "Dr. Michael Johnson",
   "Dr. Isabella Martinez", "Dr. William Davis"]

/-- `"X.Y/5 stars"` from the scaled-by-10 rounded rating `n`. -/
def ratingStringOfN (n : Nat) : String :=
  ⟨(Nat.repr (n / 10)).data ++ '.' :: (Nat.repr (n % 10)).data ++ "/5 stars".data⟩

/-- Lines 923-926: `(Math.random() * (5.0 - 3.8) + 3.8).toFixed(1) + "/5 stars"`,
with the random draw `u ∈ [0, 1)` made explicit and `toFixed(1)` read as
exact rounding to one decimal (its value at every draw in range). -/
def generateRandomRating (u : ℚ) : String :=
  ratingStringOfN (round ((u * (5.0 - 3.8) + 3.8) * 10)).toNat

/-- The line-947 fallback condition on the extracted contact. -/
def contactNeedsFallback (c : List Char) : Bool :=
  c.isEmpty || containsSub (lowerChars c) "not specified".data
    || containsSub (lowerChars c) "not available".data

/-- The line-950 fallback condition on the extracted doctor. -/
def doctorNeedsFallback (d : List Char) : Bool :=
  d.isEmpty || containsSub (lowerChars d) "not specified".data

/-- The line-953 fallback condition on the extracted rating. -/
def ratingNeedsFallback (r : List Char) : Bool :=
  r.isEmpty || containsSub (lowerChars r) "not available".data

/-- The body of the `map` of lines 928-957 for the hit at `index`; `u` is
the `Math.random()` draw consumed if the rating fallback fires. -/
def reconcileHit (resultText : String) (u : ℚ) (index : Nat)
    (hit : GroundingHit) : Hospital :=
  let contact0 := rawField resultText.data hit.name.data "CONTACT: ".data
  let doctor0 := rawField resultText.data hit.name.data "BEST DOCTOR: ".data
  let rating0 := rawField resultText.data hit.name.data "RATING: ".data
  let contact := if contactNeedsFallback contact0
    then "Not Available".data else contact0
  let bestDoctor := if doctorNeedsFallback doctor0
    then (randomDoctorNames.getD (index % randomDoctorNames.length) "").data
    else doctor0
  let rating := if ratingNeedsFallback rating0
    then (generateRandomRating u).data else rating0
  { name := hit.name, uri := hit.uri, bestDoctor := ⟨bestDoctor⟩,
    rating := ⟨rating⟩, contact := ⟨contact⟩ }

/-- The indexed `map` of line 928, index threaded explicitly;
`us index` is the rating draw for the hit at `index`. -/
def parsedHospitalsFrom (resultText : String) (us : Nat → ℚ) :
    Nat → List GroundingHit → List Hospital
  | _, [] => []
  | i, h :: t =>
    reconcileHit resultText (us i) i h :: parsedHospitalsFrom resultText us (i + 1) t

/-- `parsedHospitals` of lines 928-958. -/
def parsedHospitals (resultText : String) (us : Nat → ℚ)
    (hits : List GroundingHit) : List Hospital :=
  parsedHospitalsFrom resultText us 0 hits

/-- The line-915 message shown when the grounding data is empty. -/
def noHospitalsFoundMsg : String :=
  "Could not find any suitable hospitals nearby based on the information provided. Please try adjusting your budget or try again later."

/-- The two pieces of result state the hospital search writes. -/
structure HospitalSearchState where
  hospitalError : String
  hospitals : List Hospital

/-- Lines 877-960 after a successful narrative response: state is reset to
`{ error := "", hospitals := [] }` (lines 878-879); an empty grounding set
sets the error message and leaves the list empty (lines 914-915);
otherwise the reconciled list is stored (lines 916-959). -/
def handleFindHospitalsResult (resultText : String) (us : Nat → ℚ)
    (hits : List GroundingHit) : HospitalSearchState :=
  if hits.length = 0 then
    { hospitalError := noHospitalsFoundMsg, hospitals := [] }
  else
    { hospitalError := "", hospitals := parsedHospitals resultText us hits }

/-- The spec pattern `/^[0-9]\.[0-9]\/5 stars$/` as a checker. -/
def ratingPatternOK (s : String) : Bool :=
  match s.data with
  | a :: '.' :: b :: rest => a.isDigit && b.isDigit && rest == "/5 stars".data
  | _ => false

/-- The narrative of spec testable-property 5: a well-formed block for the
hit named `Alpha`. -/
def narrativeSpec5 : String :=
  "HOSPITAL: Alpha\nCONTACT: 555-1234\nBEST DOCTOR: Dr. Test\nRATING: 4.2/5 stars\n---"

/-- A narrative whose only block header *begins with* the hit name `Alpha`
but continues with more text. -/
def narrativeHeaderExtends : String :=
  "HOSPITAL: Alphabet City Clinic\nCONTACT: 111\n---"

/-! ## Financial-aid response handling (src/index.tsx lines 976-1024) -/

/-- A parsed JSON value, the possible results of `JSON.parse`. -/
inductive JsonValue where
  | null : JsonValue
  | bool (b : Bool) : JsonValue
  | num (q : ℚ) : JsonValue
  | str (s : String) : JsonValue
  | arr (elems : List JsonValue) : JsonValue
  | obj (fields : List (String × JsonValue)) : JsonValue

/-- The two pieces of result state the aid query writes. -/
structure FinancialAidState where
  financialAidError : String
  financialAidInfo : JsonValue

/-- The line-1021 error message. -/
def malformedAidErrorMsg : String :=
  "Sorry, I could not retrieve financial aid information at this time. Please try again later."

/-- Lines 981-1024 with a non-empty query: state is reset to
`{ error := "", info := [] }` (lines 981-982); then
`setFinancialAidInfo(JSON.parse(response.text))` stores whatever parsed,
with no shape or per-record validation; the `catch` sets the error message
and leaves the list empty.  `parsed = none` models the request throwing or
`JSON.parse` throwing. -/
def handleFindFinancialAid (parsed : Option JsonValue) : FinancialAidState :=
  match parsed with
  | none =>
    { financialAidError := malformedAidErrorMsg, financialAidInfo := JsonValue.arr [] }
  | some v => { financialAidError := "", financialAidInfo := v }

/-- First value bound to `key` in a JSON object field list. -/
def lookupField : List (String × JsonValue) → String → Option JsonValue
  | [], _ => none
  | (k, v) :: t, key => if k = key then some v else lookupField t key

/-- Whether an optional JSON value is a non-empty string. -/
def isNonEmptyStrField (v : Option JsonValue) : Bool :=
  match v with
  | some (JsonValue.str s) => s != ""
  | _ => false

/-- Spec-side definition (section 4.6 of the spec, *not* present in the
source): a valid aid record has all four fields present as non-empty
strings.  Used only to state C4 against the actual handler. -/
def specValidAidRecord (v : JsonValue) : Bool :=
  match v with
  | JsonValue.obj fs =>
    isNonEmptyStrField (lookupField fs "schemeName") &&
    isNonEmptyStrField (lookupField fs "description") &&
    isNonEmptyStrField (lookupField fs "howToAccess") &&
    isNonEmptyStrField (lookupField fs "websiteLink")
  | _ => false

/-- Spec-side definition: the payload is a list of valid aid records. -/
def specIsAidList (v : JsonValue) : Bool :=
  match v with
  | JsonValue.arr xs => xs.all specValidAidRecord
  | _ => false

/-- An aid record missing `websiteLink`. -/
def badAidRecord : JsonValue :=
  JsonValue.obj [("schemeName", JsonValue.str "Ayushman Bharat"),
    ("description", JsonValue.str "Health insurance cover"),
    ("howToAccess", JsonValue.str "Apply at a registered centre")]

/-- A parseable payload whose single record fails spec-side validation. -/
def badAidPayload : JsonValue :=
  JsonValue.arr [badAidRecord]

/-! ## Auxiliary lemmas -/

lemma geoAlertStep_inactive (c : String) (shown : Bool) :
    geoAlertStep c shown false = (false, false) := by
  simp [geoAlertStep]

lemma geoAlertStep_active_armed (c : String) (hb : (jsTrim c != "") = true) :
    geoAlertStep c false true = (true, true) := by
  simp [geoAlertStep, hb]

lemma geoAlertStep_active_shown (c : String) :
    geoAlertStep c true true = (false, true) := by
  simp [geoAlertStep]

lemma geoAlertTrace_shown_replicate_true (c : String) (n : Nat) :
    (geoAlertTrace c true (List.replicate n true)).map Prod.fst
      = List.replicate n false := by
  induction n with
  | zero => simp [geoAlertTrace]
  | succ n ih =>
    simp only [List.replicate_succ, geoAlertTrace, geoAlertStep_active_shown]
    simpa using ih

lemma emptyContact_bne : (jsTrim "" != "") = false := by decide

lemma vitalsAlertStep_emptyContact (shown a : Bool) :
    vitalsAlertStep "" shown a = (false, shown) := by
  simp [vitalsAlertStep, emptyContact_bne]

lemma geoAlertStep_emptyContact (a : Bool) :
    geoAlertStep "" false a = (false, false) := by
  simp [geoAlertStep, emptyContact_bne]

lemma atan2_zero_one : atan2 0 1 = 0 := by
  rw [atan2, if_pos (by norm_num : (0:ℝ) < 1)]
  simp

lemma havA_self (lat lon : ℝ) : havA lat lon lat lon = 0 := by
  simp [havA]

lemma havA_symm (lat1 lon1 lat2 lon2 : ℝ) :
    havA lat2 lon2 lat1 lon1 = havA lat1 lon1 lat2 lon2 := by
  rw [havA, havA,
    show (lat1 - lat2) * Real.pi / 180 / 2
        = -((lat2 - lat1) * Real.pi / 180 / 2) by ring,
    show (lon1 - lon2) * Real.pi / 180 / 2
        = -((lon2 - lon1) * Real.pi / 180 / 2) by ring,
    Real.sin_neg, Real.sin_neg]
  ring

lemma calculateDistance_of_havA_zero (lat1 lon1 lat2 lon2 : ℝ)
    (h : havA lat1 lon1 lat2 lon2 = 0) :
    calculateDistance lat1 lon1 lat2 lon2 = 0 := by
  rw [calculateDistance, h]
  simp [atan2_zero_one]

lemma calculateDistance_self (lat lon : ℝ) :
    calculateDistance lat lon lat lon = 0 :=
  calculateDistance_of_havA_zero lat lon lat lon (havA_self lat lon)

lemma havA_pole : havA 90 0 90 50 = 0 := by
  rw [havA,
    show ((90:ℝ) - 90) * Real.pi / 180 / 2 = 0 by ring,
    show (90:ℝ) * Real.pi / 180 = Real.pi / 2 by ring,
    Real.sin_zero, Real.cos_pi_div_two]
  ring

lemma geofenceRunHomes_some (h : Position) (ps : List Position) :
    geofenceRunHomes (some h) ps = List.replicate ps.length (some h) := by
  induction ps with
  | nil => rfl
  | cons p ps ih =>
    simp only [geofenceRunHomes, geofenceUpdate]
    simpa [List.replicate_succ] using ih

lemma take_of_isPrefixOf : ∀ {pat l : List Char},
    pat.isPrefixOf l = true → l.take pat.length = pat := by
  intro pat
  induction pat with
  | nil => intro l _; simp
  | cons p ps ih =>
    intro l h
    cases l with
    | nil => simp [List.isPrefixOf] at h
    | cons c t =>
      simp only [List.isPrefixOf, Bool.and_eq_true, beq_iff_eq] at h
      obtain ⟨h1, h2⟩ := h
      subst h1
      simp [List.take_succ_cons, ih h2]

lemma findSub_take {pat : List Char} : ∀ {hay : List Char} {i : Nat},
    findSub pat hay = some i → (hay.drop i).take pat.length = pat := by
  intro hay
  induction hay with
  | nil =>
    intro i h
    rw [findSub] at h
    split at h
    · rename_i hpre
      cases pat with
      | nil => simp_all
      | cons p ps => simp [List.isPrefixOf] at hpre
    · exact absurd h (by simp)
  | cons c t ih =>
    intro i h
    rw [findSub] at h
    split at h
    · rename_i hpre
      have : i = 0 := by injection h with h; exact h.symm
      subst this
      simpa using take_of_isPrefixOf hpre
    · obtain ⟨j, hj, hj1⟩ := Option.map_eq_some'.mp h
      subst hj1
      simpa using ih hj

lemma lowerChars_take (l : List Char) (n : ℕ) :
    lowerChars (l.take n) = (lowerChars l).take n :=
  List.map_take Char.toLower l n

lemma lowerChars_drop (l : List Char) (n : ℕ) :
    lowerChars (l.drop n) = (lowerChars l).drop n :=
  List.map_drop Char.toLower l n

lemma lowerChars_length (l : List Char) : (lowerChars l).length = l.length :=
  List.length_map l Char.toLower

lemma findHospitalBlock_structure (resultText name block : List Char)
    (h : findHospitalBlock resultText name = some block) :
    (lowerChars block).take ("HOSPITAL: ".data ++ name).length
        = lowerChars ("HOSPITAL: ".data ++ name) ∧
    block.drop (block.length - 3) = "---".data := by
  rw [findHospitalBlock] at h
  set pat := lowerChars ("HOSPITAL: ".data ++ name) with hpat
  have hplen : pat.length = ("HOSPITAL: ".data ++ name).length := by
    rw [hpat, lowerChars_length]
  cases h1 : findSub pat (lowerChars resultText) with
  | none => simp only [h1] at h; exact absurd h (by simp)
  | some i =>
    simp only [h1] at h
    cases h2 : findSub "---".data (resultText.drop (i + pat.length)) with
    | none => simp only [h2] at h; exact absurd h (by simp)
    | some k =>
      simp only [h2] at h
      have hb : block = (resultText.drop i).take (pat.length + k + 3) := by
        injection h with h; exact h.symm
      have hp1 : ((lowerChars resultText).drop i).take pat.length = pat :=
        findSub_take h1
      have hp2 : ((resultText.drop (i + pat.length)).drop k).take 3 = "---".data := by
        simpa using findSub_take h2
      have hp2' : (resultText.drop (i + pat.length + k)).take 3 = "---".data := by
        rw [← List.drop_drop]
        exact hp2
      have hge : 3 ≤ (resultText.drop (i + pat.length + k)).length := by
        have := congrArg List.length hp2'
        simp only [List.length_take] at this
        have h3 : ("---".data : List Char).length = 3 := by decide
        rw [h3] at this
        omega
      have hlen : resultText.length ≥ i + pat.length + k + 3 := by
        have := List.length_drop (i + pat.length + k) resultText
        omega
      constructor
      · rw [← hplen, hb, lowerChars_take, lowerChars_drop, List.take_take]
        have hmin : min pat.length (pat.length + k + 3) = pat.length := by omega
        rw [hmin]
        exact hp1
      · have hlb : block.length = pat.length + k + 3 := by
          rw [hb]
          simp only [List.length_take, List.length_drop]
          omega
        rw [hlb, hb]
        have hsub : pat.length + k + 3 - 3 = pat.length + k := by omega
        rw [hsub, List.drop_take]
        have : pat.length + k + 3 - (pat.length + k) = 3 := by omega
        rw [this, List.drop_drop]
        have hcomm : i + (pat.length + k) = i + pat.length + k := by omega
        rw [hcomm]
        exact hp2'


lemma findSub_nil (pat : List Char) (hp : pat ≠ []) : findSub pat [] = none := by
  cases pat with
  | nil => exact absurd rfl hp
  | cons a t => simp [findSub, List.isPrefixOf]

lemma findHospitalBlock_nil (name : List Char) : findHospitalBlock [] name = none := by
  have hH : "HOSPITAL: ".data = 'H' :: "OSPITAL: ".data := by decide
  have hp : lowerChars ("HOSPITAL: ".data ++ name) ≠ [] := by
    rw [hH]; simp [lowerChars]
  simp only [findHospitalBlock, show lowerChars ([] : List Char) = [] from rfl,
    findSub_nil _ hp]

lemma rawField_nil (name label : List Char) : rawField [] name label = [] := by
  rw [rawField, findHospitalBlock_nil]

lemma reconcileHit_empty (u : ℚ) (i : Nat) (hit : GroundingHit) :
    reconcileHit "" u i hit =
      { name := hit.name, uri := hit.uri,
        bestDoctor := randomDoctorNames.getD (i % randomDoctorNames.length) "",
        rating := generateRandomRating u, contact := "Not Available" } := by
  rw [reconcileHit]
  rw [show ("" : String).data = ([] : List Char) from rfl]
  rw [rawField_nil, rawField_nil, rawField_nil]
  rfl

lemma stringMk_ne_empty {l : List Char} (h : l ≠ []) : (⟨l⟩ : String) ≠ "" := by
  intro he
  apply h
  have hd : (⟨l⟩ : String).data = ("" : String).data := by rw [he]
  simpa using hd

lemma generateRandomRating_ne_empty (u : ℚ) : generateRandomRating u ≠ "" := by
  rw [generateRandomRating, ratingStringOfN]
  apply stringMk_ne_empty
  simp

lemma doctorPool_getD_ne_empty (i : Nat) :
    randomDoctorNames.getD (i % randomDoctorNames.length) "" ≠ "" := by
  have h8 : randomDoctorNames.length = 8 := rfl
  have hlt : i % randomDoctorNames.length < 8 := by
    rw [h8]; exact Nat.mod_lt _ (by norm_num)
  have hball : ∀ j, j < 8 → randomDoctorNames.getD j "" ≠ "" := by decide
  exact hball _ hlt

lemma reconcileHit_fields_ne_empty (rt : String) (u : ℚ) (i : Nat)
    (hit : GroundingHit) :
    (reconcileHit rt u i hit).contact ≠ "" ∧
    (reconcileHit rt u i hit).bestDoctor ≠ "" ∧
    (reconcileHit rt u i hit).rating ≠ "" := by
  rw [reconcileHit]
  refine ⟨?_, ?_, ?_⟩
  · cases hcase : contactNeedsFallback (rawField rt.data hit.name.data "CONTACT: ".data) with
    | true => simp [hcase]
    | false =>
      simp only [hcase, Bool.false_eq_true, if_false]
      apply stringMk_ne_empty
      rw [contactNeedsFallback] at hcase
      simp only [Bool.or_eq_false_iff] at hcase
      simpa using hcase.1.1
  · cases hcase : doctorNeedsFallback (rawField rt.data hit.name.data "BEST DOCTOR: ".data) with
    | true =>
      simp only [hcase, if_true]
      exact doctorPool_getD_ne_empty i
    | false =>
      simp only [hcase, Bool.false_eq_true, if_false]
      apply stringMk_ne_empty
      rw [doctorNeedsFallback] at hcase
      simp only [Bool.or_eq_false_iff] at hcase
      simpa using hcase.1
  · cases hcase : ratingNeedsFallback (rawField rt.data hit.name.data "RATING: ".data) with
    | true =>
      simp only [hcase, if_true]
      exact generateRandomRating_ne_empty u
    | false =>
      simp only [hcase, Bool.false_eq_true, if_false]
      apply stringMk_ne_empty
      rw [ratingNeedsFallback] at hcase
      simp only [Bool.or_eq_false_iff] at hcase
      simpa using hcase.1

lemma ratingStringOfN_pattern :
    ∀ n, n < 51 → 38 ≤ n → ratingPatternOK (ratingStringOfN n) = true := by
  decide

lemma generateRandomRating_pattern (u : ℚ) (h0 : 0 ≤ u) (h1 : u < 1) :
    ratingPatternOK (generateRandomRating u) = true := by
  rw [generateRandomRating]
  have hx : (u * (5.0 - 3.8) + 3.8) * 10 = 12 * u + 38 := by
    have h58 : (5.0 - 3.8 : ℚ) = 6 / 5 := by norm_num
    have h38 : (3.8 : ℚ) = 19 / 5 := by norm_num
    rw [h58, h38]; ring
  rw [hx]
  obtain ⟨ha, hb⟩ := abs_le.mp (abs_sub_round (12 * u + 38 : ℚ))
  have hlo : (37:ℚ) < (round (12 * u + 38 : ℚ) : ℚ) := by linarith
  have hhi : ((round (12 * u + 38 : ℚ) : ℤ) : ℚ) < 51 := by linarith
  have hloZ : (37:ℤ) < round (12 * u + 38 : ℚ) := by exact_mod_cast hlo
  have hhiZ : round (12 * u + 38 : ℚ) < 51 := by exact_mod_cast hhi
  exact ratingStringOfN_pattern _ (by omega) (by omega)

lemma parsedHospitalsFrom_length (rt : String) (us : Nat → ℚ) :
    ∀ (i : Nat) (hits : List GroundingHit),
      (parsedHospitalsFrom rt us i hits).length = hits.length := by
  intro i hits
  induction hits generalizing i with
  | nil => rfl
  | cons h t ih => simp [parsedHospitalsFrom, ih]

lemma parsedHospitalsFrom_names (rt : String) (us : Nat → ℚ) :
    ∀ (i : Nat) (hits : List GroundingHit),
      (parsedHospitalsFrom rt us i hits).map Hospital.name
        = hits.map GroundingHit.name := by
  intro i hits
  induction hits generalizing i with
  | nil => rfl
  | cons h t ih => simp [parsedHospitalsFrom, ih, reconcileHit]

lemma parsedHospitalsFrom_uris (rt : String) (us : Nat → ℚ) :
    ∀ (i : Nat) (hits : List GroundingHit),
      (parsedHospitalsFrom rt us i hits).map Hospital.uri
        = hits.map GroundingHit.uri := by
  intro i hits
  induction hits generalizing i with
  | nil => rfl
  | cons h t ih => simp [parsedHospitalsFrom, ih, reconcileHit]


end MedAssist

namespace MedAssist

/-- C1.  The claim asserts that *both* debouncer instances re-arm on the
first normal sample.  The vitals effect (lines 725-732) never clears
`vitalsAlertShownRef` on a normal reading (the flag is only reset when a
monitoring session starts), so on the claimed sample sequence the vitals
instance fires only once, not twice: the claimed fire trace
`[false, true, false, false, true]` is wrong for vitals. -/
theorem C1_counterexample :
    (vitalsAlertTrace "911" false [false, true, true, false, true]).map Prod.fst
        = [false, true, false, false, false] ∧
    ([false, true, false, false, false] : List Bool)
        ≠ [false, true, false, false, true] := by
  decide

/-- C1 (amended).  For the *geofence* debouncer (lines 768-776), with a
non-empty emergency contact: the sample sequence
`[false, true, true, false, true]` yields fires
`[false, true, false, false, true]`; any all-true run of samples fires at
most once; every normal sample clears the shown flag (re-arms); and an
armed debouncer fires on an abnormal sample, so a later abnormal run fires
again.  The vitals debouncer instead latches for the whole session: its
normal-sample step keeps the flag unchanged. -/
theorem C1_debouncer (c : String) (hc : jsTrim c ≠ "") :
    ((geoAlertTrace c false [false, true, true, false, true]).map Prod.fst
        = [false, true, false, false, true]) ∧
    (∀ shown n,
      ((geoAlertTrace c shown (List.replicate n true)).map Prod.fst).count true ≤ 1) ∧
    (∀ shown, (geoAlertStep c shown false).2 = false) ∧
    ((geoAlertStep c false true).1 = true) ∧
    (∀ shown, (vitalsAlertStep c shown false).2 = shown) := by
  have hb : (jsTrim c != "") = true := bne_iff_ne.mpr hc
  refine ⟨?_, ?_, ?_, ?_, ?_⟩
  · simp [geoAlertTrace, geoAlertStep_inactive, geoAlertStep_active_armed c hb,
      geoAlertStep_active_shown]
  · intro shown n
    cases shown with
    | true => simp [geoAlertTrace_shown_replicate_true, List.count_replicate]
    | false =>
      cases n with
      | zero => simp [geoAlertTrace]
      | succ n =>
        simp only [List.replicate_succ, geoAlertTrace,
          geoAlertStep_active_armed c hb]
        simp [geoAlertTrace_shown_replicate_true, List.count_replicate]
  · intro shown; rw [geoAlertStep_inactive]
  · rw [geoAlertStep_active_armed c hb]
  · intro shown; simp [vitalsAlertStep]

theorem C1_debouncer_witness :
    jsTrim "911" ≠ "" ∧
    (geoAlertTrace "911" false [false, true, true, false, true]).map Prod.fst
        = [false, true, false, false, true] :=
  ⟨by decide, (C1_debouncer "911" (by decide)).1⟩

/-- C2.  The claim asserts the shown/armed flag evolves independently of
the emergency contact.  It does not: on an abnormal sample, a non-empty
contact sets the shown flag while an empty contact leaves it clear, for
both debouncer instances. -/
theorem C2_counterexample :
    (vitalsAlertTrace "911" false [true]).map Prod.snd = [true] ∧
    (vitalsAlertTrace "" false [true]).map Prod.snd = [false] ∧
    (geoAlertTrace "911" false [true]).map Prod.snd = [true] ∧
    (geoAlertTrace "" false [true]).map Prod.snd = [false] ∧
    ([true] : List Bool) ≠ [false] := by
  decide

/-- C2 (amended).  An empty emergency contact suppresses notification
delivery (no sample ever fires), but it also freezes the disarm
transition: with an empty contact the vitals flag never changes at all,
and the geofence flag stays clear for a whole session started clear.  So
the armed-flag trace is *not* contact-independent; it coincides with the
non-empty-contact trace only until the first sample that would fire. -/
theorem C2_emptyContact :
    (∀ shown samples, (vitalsAlertTrace "" shown samples).map Prod.fst
        = List.replicate samples.length false) ∧
    (∀ shown samples, (vitalsAlertTrace "" shown samples).map Prod.snd
        = List.replicate samples.length shown) ∧
    (∀ samples, (geoAlertTrace "" false samples).map Prod.fst
        = List.replicate samples.length false) ∧
    (∀ samples, (geoAlertTrace "" false samples).map Prod.snd
        = List.replicate samples.length false) := by
  refine ⟨?_, ?_, ?_, ?_⟩
  · intro shown samples
    induction samples generalizing shown with
    | nil => simp [vitalsAlertTrace]
    | cons a as ih =>
      simp [vitalsAlertTrace, vitalsAlertStep_emptyContact, ih,
        List.replicate_succ]
  · intro shown samples
    induction samples generalizing shown with
    | nil => simp [vitalsAlertTrace]
    | cons a as ih =>
      simp [vitalsAlertTrace, vitalsAlertStep_emptyContact, ih,
        List.replicate_succ]
  · intro samples
    induction samples with
    | nil => simp [geoAlertTrace]
    | cons a as ih =>
      simp [geoAlertTrace, geoAlertStep_emptyContact, ih, List.replicate_succ]
  · intro samples
    induction samples with
    | nil => simp [geoAlertTrace]
    | cons a as ih =>
      simp [geoAlertTrace, geoAlertStep_emptyContact, ih, List.replicate_succ]

/-- C7.  After a home reference exists, a position update is classified
out-of-bounds exactly when the computed distance from home exceeds 5 km
(line 750 is `distance > 5`); in particular a computed distance of 6 km
is out-of-bounds and one of 4 km is in-bounds. -/
theorem C7_boundaryThreshold :
    (∀ (h p : Position), (geofenceUpdate (some h) p).2 ↔
        calculateDistance h.lat h.lon p.lat p.lon > 5) ∧
    isOutOfBoundsFor 6 ∧ ¬ isOutOfBoundsFor 4 := by
  refine ⟨fun h p => Iff.rfl, ?_, ?_⟩
  · show (6:ℝ) > 5; norm_num
  · show ¬ ((4:ℝ) > 5); norm_num

/-- C8.  A monitoring session starts with the home reference cleared
(lines 738-739), the first reading sets it, and every later reading of the
session keeps it: the home trace over readings `p :: ps` is constantly
`some p`.  Stopping and restarting replays the same effect from a cleared
reference, so the next session re-establishes home from its own first
reading. -/
theorem C8_homeSetOnce :
    (∀ (p : Position) (ps : List Position),
      geofenceRunHomes none (p :: ps)
        = List.replicate (ps.length + 1) (some p)) ∧
    (∀ p : Position, (geofenceUpdate none p).1 = some p) := by
  constructor
  · intro p ps
    simp only [geofenceRunHomes, geofenceUpdate]
    simpa [List.replicate_succ] using geofenceRunHomes_some p ps
  · intro p; rfl

/-- C9.  `calculateDistance` is symmetric and zero on the diagonal, but it
is *not* nonzero at every pair of distinct coordinates: at latitude 90 the
longitude term is multiplied by `cos(π/2) = 0`, so the two distinct
coordinates `(90, 0)` and `(90, 50)` are at computed distance 0. -/
theorem C9_counterexample :
    calculateDistance 90 0 90 50 = 0 ∧
    Position.mk 90 0 ≠ Position.mk 90 50 := by
  constructor
  · exact calculateDistance_of_havA_zero 90 0 90 50 havA_pole
  · intro h
    have h50 : (0:ℝ) = 50 := congrArg Position.lon h
    norm_num at h50

/-- C9 (amended).  `calculateDistance` is symmetric,
`calculateDistance a b = calculateDistance b a`, and it is zero whenever
the two coordinates are equal; the converse fails (see the polar
counterexample), so zero does not characterise equality. -/
theorem C9_symm_and_diag :
    (∀ lat1 lon1 lat2 lon2 : ℝ,
      calculateDistance lat1 lon1 lat2 lon2
        = calculateDistance lat2 lon2 lat1 lon1) ∧
    (∀ lat lon : ℝ, calculateDistance lat lon lat lon = 0) := by
  constructor
  · intro lat1 lon1 lat2 lon2
    rw [calculateDistance, calculateDistance, havA_symm]
  · exact calculateDistance_self

/-- C10.  The first position update of a session (home reference still
`none`) defaults the home to that very reading, whose distance to itself
is 0, which does not exceed 5: the first reading is always classified
in-bounds, so no geofence alert can be raised by it. -/
theorem C10_firstReadingInBounds (p : Position) :
    ¬ (geofenceUpdate none p).2 ∧ (geofenceUpdate none p).1 = some p := by
  constructor
  · show ¬ isOutOfBoundsFor (calculateDistance p.lat p.lon p.lat p.lon)
    rw [isOutOfBoundsFor, calculateDistance_self]
    norm_num
  · rfl

theorem C3_counterexample :
    findHospitalBlock narrativeHeaderExtends.data "Alpha".data
        = some "HOSPITAL: Alphabet City Clinic\nCONTACT: 111\n---".data ∧
    (reconcileHit narrativeHeaderExtends 0 0 ⟨"Alpha", "u1"⟩).contact = "111" ∧
    "Alphabet City Clinic" ≠ "Alpha" := by
  refine ⟨by decide, by decide, by decide⟩

theorem C3_blockSelection :
    (∀ resultText name block : List Char,
      findHospitalBlock resultText name = some block →
        (lowerChars block).take ("HOSPITAL: ".data ++ name).length
            = lowerChars ("HOSPITAL: ".data ++ name) ∧
        block.drop (block.length - 3) = "---".data) ∧
    reconcileHit narrativeSpec5 0 0 ⟨"Alpha", "u1"⟩
        = ⟨"Alpha", "u1", "Dr. Test", "4.2/5 stars", "555-1234"⟩ :=
  ⟨findHospitalBlock_structure, rfl⟩

theorem C3_blockSelection_witness :
    (lowerChars narrativeSpec5.data).take ("HOSPITAL: ".data ++ "Alpha".data).length
        = lowerChars ("HOSPITAL: ".data ++ "Alpha".data) ∧
    narrativeSpec5.data.drop (narrativeSpec5.data.length - 3) = "---".data :=
  C3_blockSelection.1 narrativeSpec5.data "Alpha".data narrativeSpec5.data (by decide)

theorem C5_counterexample :
    (handleFindHospitalsResult "" (fun _ => 0) []).hospitalError = noHospitalsFoundMsg ∧
    noHospitalsFoundMsg ≠ "" ∧
    (handleFindHospitalsResult "" (fun _ => 0) []).hospitals = [] := by
  refine ⟨rfl, by decide, rfl⟩

theorem C5_orderCountPreserved :
    (∀ (rt : String) (us : Nat → ℚ) (hits : List GroundingHit), hits ≠ [] →
      (handleFindHospitalsResult rt us hits).hospitalError = "" ∧
      (handleFindHospitalsResult rt us hits).hospitals.length = hits.length ∧
      (handleFindHospitalsResult rt us hits).hospitals.map Hospital.name
          = hits.map GroundingHit.name ∧
      (handleFindHospitalsResult rt us hits).hospitals.map Hospital.uri
          = hits.map GroundingHit.uri) ∧
    (∀ (rt : String) (us : Nat → ℚ),
      handleFindHospitalsResult rt us [] = ⟨noHospitalsFoundMsg, []⟩) := by
  constructor
  · intro rt us hits hne
    have hlen : ¬ hits.length = 0 := by simpa using hne
    rw [handleFindHospitalsResult, if_neg hlen]
    exact ⟨rfl, parsedHospitalsFrom_length rt us 0 hits,
      parsedHospitalsFrom_names rt us 0 hits, parsedHospitalsFrom_uris rt us 0 hits⟩
  · intro rt us; rfl

theorem C5_witness :
    ([⟨"Alpha", "u1"⟩] : List GroundingHit) ≠ [] ∧
    (handleFindHospitalsResult "" (fun _ => 0) [⟨"Alpha", "u1"⟩]).hospitals.length = 1 := by
  refine ⟨by simp, ?_⟩
  have h := (C5_orderCountPreserved.1 "" (fun _ => 0) [⟨"Alpha", "u1"⟩] (by simp)).2.1
  simpa using h

theorem C6_fallbackEnrichment :
    (∀ (rt : String) (u : ℚ) (i : Nat) (hit : GroundingHit),
      (reconcileHit rt u i hit).contact ≠ "" ∧
      (reconcileHit rt u i hit).bestDoctor ≠ "" ∧
      (reconcileHit rt u i hit).rating ≠ "") ∧
    (∀ (u : ℚ) (i : Nat) (hit : GroundingHit),
      reconcileHit "" u i hit =
        { name := hit.name, uri := hit.uri,
          bestDoctor := randomDoctorNames.getD (i % randomDoctorNames.length) "",
          rating := generateRandomRating u, contact := "Not Available" }) ∧
    (∀ (rt : String) (u : ℚ) (i : Nat) (hit : GroundingHit),
      (contactNeedsFallback (rawField rt.data hit.name.data "CONTACT: ".data) = true →
        (reconcileHit rt u i hit).contact = "Not Available") ∧
      (doctorNeedsFallback (rawField rt.data hit.name.data "BEST DOCTOR: ".data) = true →
        (reconcileHit rt u i hit).bestDoctor
          = randomDoctorNames.getD (i % randomDoctorNames.length) "") ∧
      (ratingNeedsFallback (rawField rt.data hit.name.data "RATING: ".data) = true →
        (reconcileHit rt u i hit).rating = generateRandomRating u)) ∧
    (∀ u : ℚ, 0 ≤ u → u < 1 → ratingPatternOK (generateRandomRating u) = true) := by
  refine ⟨reconcileHit_fields_ne_empty, reconcileHit_empty, ?_, generateRandomRating_pattern⟩
  intro rt u i hit
  refine ⟨?_, ?_, ?_⟩
  · intro hc; rw [reconcileHit]; simp only [hc, if_true]
  · intro hc; rw [reconcileHit]; simp only [hc, if_true]
  · intro hc; rw [reconcileHit]; simp only [hc, if_true]

theorem C6_witness :
    ratingPatternOK (generateRandomRating ((1:ℚ)/2)) = true ∧
    (reconcileHit "" ((1:ℚ)/2) 0 ⟨"Alpha", "u1"⟩).contact = "Not Available" :=
  ⟨C6_fallbackEnrichment.2.2.2 ((1:ℚ)/2) (by norm_num) (by norm_num),
   (C6_fallbackEnrichment.2.2.1 "" ((1:ℚ)/2) 0 ⟨"Alpha", "u1"⟩).1 (by decide)⟩

theorem C4_counterexample :
    (handleFindFinancialAid (some badAidPayload)).financialAidError = "" ∧
    (handleFindFinancialAid (some badAidPayload)).financialAidInfo = badAidPayload ∧
    specValidAidRecord badAidRecord = false ∧
    badAidPayload = JsonValue.arr [badAidRecord] ∧
    (handleFindFinancialAid (some (JsonValue.num 5))).financialAidError = "" ∧
    specIsAidList (JsonValue.num 5) = false := by
  refine ⟨rfl, rfl, by decide, rfl, rfl, rfl⟩

theorem C4_noValidation :
    (∀ v, handleFindFinancialAid (some v) = ⟨"", v⟩) ∧
    handleFindFinancialAid none = ⟨malformedAidErrorMsg, JsonValue.arr []⟩ :=
  ⟨fun _ => rfl, rfl⟩


end MedAssist
